import Mathlib

/-!
Shallow embedding of kata198/python-weektime (src/weektime/__init__.py).

A WeekRange is an immutable weekly window with optional start/end weekday
(0 = Sunday .. 6 = Saturday), hour and minute.  At construction it classifies
itself into one of ten topological cases and binds the matching comparison
function; membership testing dispatches on that bound case.  We embed the
per-instance bound method as a tag (Cmp) stored in the structure, with
WeekRange.intersects dispatching on the tag, exactly mirroring which
comparator the Python constructor binds.

Python exceptions are modelled as an error type distinguishing the module
type WeekRangeValueError (a subclass of ValueError) from the builtin
ValueError, since the source raises both.
-/

/-- Error type: weekRangeValueError models the module exception class
WeekRangeValueError; valueError models the builtin ValueError raised
directly (the source raises a bare ValueError at one place, and
WeekRange.createFromStr raises a bare ValueError on format mismatch). -/
inductive WRError
  | weekRangeValueError (msg : String)
  | valueError (msg : String)

deriving instance DecidableEq, Repr for WRError

/-- Day argument to the WeekRange constructor: Python None, an int, or a
string (digit string or locale weekday abbreviation). -/
inductive DayArg
  | absent
  | num (n : Int)
  | str (s : String)

deriving instance DecidableEq, Repr for DayArg

/-- Comparison-function tag: which of the ten comparator methods the
constructor binds to self.intersects. -/
inductive Cmp
  | timeOnlyOuter
  | timeOnlyOuterMinOnly
  | timeOnlyInnerMinOnly
  | timeOnlyInner
  | outer
  | outerSameDay
  | outerSameDaySameHour
  | innerSameDaySameHour
  | innerSameDay
  | inner

deriving instance DecidableEq, Repr for Cmp

/-- The resolved, frozen WeekRange value: fields as stored on the Python
object after construction, plus the bound comparator tag. -/
structure WeekRange where
  startDay : Option Int
  startHour : Int
  startMinute : Int
  endDay : Option Int
  endHour : Int
  endMinute : Int
  cmp : Cmp

deriving instance DecidableEq, Repr for WeekRange

/-- A calendar instant reduced to what intersects reads from the datetime
object: int(strftime of the w directive) (weekday, 0 = Sunday), hour, minute. -/
structure Instant where
  day : Int
  hour : Int
  minute : Int

deriving instance DecidableEq, Repr for Instant

/-- Locale collaborator, modelled from the spec: the ordered Sunday-first
7-element list of lowercased weekday abbreviations for the English/C locale
(getWeekDayAbbreviations with lower true; the source computes this from the
process locale, an environment dependency outside the embedding). -/
def weekDayAbbreviationsLower : List String :=
  ["sun", "mon", "tue", "wed", "thu", "fri", "sat"]

/-- Python str.isdigit for ASCII input: nonempty and all digits. -/
def pyIsDigit (s : String) : Bool :=
  decide (s.toList.length > 0) && s.toList.all Char.isDigit

/-- Python str.lower for ASCII input, written over the character list. -/
def pyLower (s : String) : String :=
  String.mk (s.toList.map Char.toLower)

/-- Python int() applied to a digit string. -/
def strToInt (s : String) : Int :=
  Int.ofNat (s.toList.foldl (fun acc c => acc * 10 + (c.toNat - 48)) 0)

/-- Message of the invalid-day error raised by dayStrToNumber. -/
def invalidDayMsg (dayStr : String) : String :=
  ("Day \"" ++ dayStr ++ "\" provided to WeekRange is invalid. Should be a number (Sunday=0 to Saturday=6) or a three-letter abbreviation matching current locale (like \"Mon\" for Monday in English)")

/-- Embedding of dayStrToNumber: digit strings convert directly but must be
below 7; other strings are lowercased, truncated to 3 characters when longer,
and looked up in the abbreviation list; failure raises WeekRangeValueError. -/
def dayStrToNumber (dayStr : String) : Except WRError Int :=
  if pyIsDigit dayStr then
    let dayNum := strToInt dayStr
    if dayNum ≥ 7 then
      Except.error (WRError.weekRangeValueError (invalidDayMsg dayStr))
    else
      Except.ok dayNum
  else
    let d1 := pyLower dayStr
    let d2 := if d1.toList.length > 3 then String.mk (d1.toList.take 3) else d1
    match weekDayAbbreviationsLower.findIdx? (fun x => x = d2) with
    | some i => Except.ok (Int.ofNat i)
    | Option.none => Except.error (WRError.weekRangeValueError (invalidDayMsg d2))

/-- Day-argument resolution performed at the top of the constructor:
strings go through dayStrToNumber, None stays None, other values go
through int(). -/
def resolveDay : DayArg → Except WRError (Option Int)
  | DayArg.absent => Except.ok Option.none
  | DayArg.num n => Except.ok (some n)
  | DayArg.str s =>
    match dayStrToNumber s with
    | Except.error e => Except.error e
    | Except.ok n => Except.ok (some n)

/-- Embedding of the method of the same name: same hour, going outer
(startMinute greater than endMinute, day-less).  Reads only the minute. -/
def WeekRange.intersectsTimeOnlyOuterMinOnly (r : WeekRange) (t : Instant) : Bool :=
  if t.minute ≥ r.endMinute ∧ t.minute < r.startMinute then false
  else true

/-- Embedding of the method of the same name: same hour, going inner. -/
def WeekRange.intersectsTimeOnlyInnerMinOnly (r : WeekRange) (t : Instant) : Bool :=
  if t.hour ≠ r.startHour then false
  else if t.minute < r.startMinute ∨ t.minute ≥ r.endMinute then false
  else true

/-- Embedding of the method of the same name: hours differ, going outer. -/
def WeekRange.intersectsTimeOnlyOuter (r : WeekRange) (t : Instant) : Bool :=
  if t.hour < r.startHour ∧ t.hour > r.endHour then false
  else if t.hour = r.startHour then
    if t.minute < r.startMinute then false else true
  else if t.hour = r.endHour then
    if t.minute ≥ r.endMinute then false else true
  else true

/-- Embedding of the method of the same name: hours differ, going inner. -/
def WeekRange.intersectsTimeOnlyInner (r : WeekRange) (t : Instant) : Bool :=
  if t.hour = r.startHour then
    if t.minute ≥ r.startMinute then true else false
  else if t.hour = r.endHour then
    if t.minute < r.endMinute then true else false
  else if t.hour < r.startHour ∨ t.hour > r.endHour then false
  else true

/-- Embedding of the day-bound multi-day inner comparator.  The day fields
are unwrapped by pattern match; the fallback arm is unreachable for ranges
built by the constructor, which binds this comparator only with both days
present.  The boolean logic mirrors the source line by line; the source
additionally executes a leftover pdb.set_trace debugger call on entry,
which has no boolean counterpart here. -/
def WeekRange.intersectsInner (r : WeekRange) (t : Instant) : Bool :=
  match r.startDay, r.endDay with
  | some sd, some ed =>
    if t.day < sd ∨ t.day > ed then false
    else if t.day = sd then
      if t.hour > r.startHour then true
      else if t.hour = r.startHour ∧ t.minute ≥ r.startMinute then true
      else false
    else if t.day = ed then
      if t.hour < r.endHour then true
      else if t.hour = r.endHour ∧ t.minute < r.endMinute then true
      else false
    else true
  | _, _ => false

/-- Embedding of the same-day inner comparator (day equal, hours differ).
Note the final arm returns false, as in the source. -/
def WeekRange.intersectsInnerSameDay (r : WeekRange) (t : Instant) : Bool :=
  match r.startDay with
  | some sd =>
    if t.day ≠ sd then false
    else if t.hour < r.startHour ∨ t.hour > r.endHour then false
    else if t.hour = r.startHour ∧ t.minute ≥ r.startMinute then true
    else if t.hour = r.endHour ∧ t.minute < r.endMinute then true
    else false
  | Option.none => false

/-- Embedding of the same-day same-hour inner comparator. -/
def WeekRange.intersectsInnerSameDaySameHour (r : WeekRange) (t : Instant) : Bool :=
  match r.startDay with
  | some sd =>
    if t.day ≠ sd ∨ t.hour ≠ r.startHour then false
    else if t.minute ≥ r.startMinute ∧ t.minute < r.endMinute then true
    else false
  | Option.none => false

/-- Embedding of the day-bound multi-day outer comparator. -/
def WeekRange.intersectsOuter (r : WeekRange) (t : Instant) : Bool :=
  match r.startDay, r.endDay with
  | some sd, some ed =>
    if t.day > ed ∧ t.day < sd then false
    else if t.day = sd then
      if t.hour < r.startHour then false
      else if t.hour = r.startHour ∧ t.minute < r.startMinute then false
      else true
    else if t.day = ed then
      if t.hour > r.endHour then false
      else if t.hour = r.endHour ∧ t.minute ≥ r.endMinute then false
      else true
    else true
  | _, _ => false

/-- Embedding of the same-day outer comparator (day equal, hours differ). -/
def WeekRange.intersectsOuterSameDay (r : WeekRange) (t : Instant) : Bool :=
  match r.startDay with
  | some sd =>
    if t.day ≠ sd then true
    else if t.hour > r.startHour ∨ t.hour < r.endHour then true
    else if t.hour = r.startHour then
      if t.minute ≥ r.startMinute then true else false
    else if t.hour = r.endHour then
      if t.minute < r.endMinute then true else false
    else false
  | Option.none => false

/-- Embedding of the same-day same-hour outer comparator. -/
def WeekRange.intersectsOuterSameDaySameHour (r : WeekRange) (t : Instant) : Bool :=
  match r.startDay with
  | some sd =>
    if t.day ≠ sd ∨ t.hour ≠ r.startHour then true
    else if t.minute < r.startMinute ∧ t.minute ≥ r.endMinute then false
    else true
  | Option.none => false

/-- Membership test: dispatch on the comparator tag bound at construction,
mirroring the per-instance bound method of the source. -/
def WeekRange.intersects (r : WeekRange) (t : Instant) : Bool :=
  match r.cmp with
  | Cmp.timeOnlyOuter => r.intersectsTimeOnlyOuter t
  | Cmp.timeOnlyOuterMinOnly => r.intersectsTimeOnlyOuterMinOnly t
  | Cmp.timeOnlyInnerMinOnly => r.intersectsTimeOnlyInnerMinOnly t
  | Cmp.timeOnlyInner => r.intersectsTimeOnlyInner t
  | Cmp.outer => r.intersectsOuter t
  | Cmp.outerSameDay => r.intersectsOuterSameDay t
  | Cmp.outerSameDaySameHour => r.intersectsOuterSameDaySameHour t
  | Cmp.innerSameDaySameHour => r.intersectsInnerSameDaySameHour t
  | Cmp.innerSameDay => r.intersectsInnerSameDay t
  | Cmp.inner => r.intersectsInner t

/-- Message of the asymmetric-day error when the auto-fill rule does not
apply (end day absent, start day present, end time not after start time). -/
def autoFillErrMsg : String :=
  ("Start and end day must both be empty, both defined, or start day may be defined if the end time is AFTER the start time (i.e. Mon 12:00 - 18:00 is okay, but Mon 18:00 - 12:00 is not)")

/-- Message of the asymmetric-day error when start day is absent and end day
is present. -/
def symmetryErrMsg : String :=
  ("Start and end day must both be empty or both be defined.")

/-- Message shared by both zero-length-range errors. -/
def sameTimeErrMsg : String :=
  ("Start and end time cannot be the same.")

/-- Classification of a day-less range (constructor branch where startDay is
None): picks the time-only comparator, or rejects a zero-length range with
WeekRangeValueError. -/
def classifyTimeOnly (sh sm eh em : Int) : Except WRError WeekRange :=
  if sh > eh then
    Except.ok ⟨Option.none, sh, sm, Option.none, eh, em, Cmp.timeOnlyOuter⟩
  else if sh = eh then
    if sm > em then
      Except.ok ⟨Option.none, sh, sm, Option.none, eh, em, Cmp.timeOnlyOuterMinOnly⟩
    else if sm = em then
      Except.error (WRError.weekRangeValueError sameTimeErrMsg)
    else
      Except.ok ⟨Option.none, sh, sm, Option.none, eh, em, Cmp.timeOnlyInnerMinOnly⟩
  else
    Except.ok ⟨Option.none, sh, sm, Option.none, eh, em, Cmp.timeOnlyInner⟩

/-- Classification of a day-bound range (constructor branch where startDay is
not None; endDay is an int here, possibly auto-filled): picks the day-bound
comparator, or rejects a zero-length range.  The source raises a bare
builtin ValueError at the zero-length arm of this branch, unlike the
day-less branch which raises WeekRangeValueError. -/
def classifyDay (sd sh sm ed eh em : Int) : Except WRError WeekRange :=
  if sd > ed then
    Except.ok ⟨some sd, sh, sm, some ed, eh, em, Cmp.outer⟩
  else if sd = ed then
    if sh > eh then
      Except.ok ⟨some sd, sh, sm, some ed, eh, em, Cmp.outerSameDay⟩
    else if sh = eh then
      if sm > em then
        Except.ok ⟨some sd, sh, sm, some ed, eh, em, Cmp.outerSameDaySameHour⟩
      else if sm = em then
        Except.error (WRError.valueError sameTimeErrMsg)
      else
        Except.ok ⟨some sd, sh, sm, some ed, eh, em, Cmp.innerSameDaySameHour⟩
    else
      Except.ok ⟨some sd, sh, sm, some ed, eh, em, Cmp.innerSameDay⟩
  else
    Except.ok ⟨some sd, sh, sm, some ed, eh, em, Cmp.inner⟩

/-- Core of the constructor after day resolution: the auto-fill rule for a
missing end day, the symmetry check, and classification.  The four arms
correspond to the presence combinations of the two day fields in the
source control flow. -/
def makeResolved (sd0 : Option Int) (sh sm : Int) (ed0 : Option Int) (eh em : Int) :
    Except WRError WeekRange :=
  match sd0, ed0 with
  | some sd, Option.none =>
    if eh > sh ∨ (eh = sh ∧ em > sm) then classifyDay sd sh sm sd eh em
    else Except.error (WRError.weekRangeValueError autoFillErrMsg)
  | Option.none, some _ =>
    Except.error (WRError.weekRangeValueError symmetryErrMsg)
  | Option.none, Option.none => classifyTimeOnly sh sm eh em
  | some sd, some ed => classifyDay sd sh sm ed eh em

/-- Embedding of the WeekRange constructor: resolve the start day, then the
end day (errors in that order, as in the source), then apply the auto-fill
rule and classify. -/
def WeekRange.make (sd : DayArg) (sh sm : Int) (ed : DayArg) (eh em : Int) :
    Except WRError WeekRange :=
  match resolveDay sd with
  | Except.error e => Except.error e
  | Except.ok od =>
    match resolveDay ed with
    | Except.error e => Except.error e
    | Except.ok oe => makeResolved od sh sm oe eh em

/-- Inner cases among the ten comparator tags. -/
def Cmp.isInner : Cmp → Bool
  | Cmp.timeOnlyInnerMinOnly => true
  | Cmp.timeOnlyInner => true
  | Cmp.innerSameDaySameHour => true
  | Cmp.innerSameDay => true
  | Cmp.inner => true
  | _ => false

/-- Parsed capture groups of WEEK_RANGE_RE, as handed to the constructor by
createFromStr (unmatched optional day groups are None). -/
structure ParsedRange where
  startDayTok : Option String
  startHourTok : String
  startMinuteTok : String
  endDayTok : Option String
  endHourTok : String
  endMinuteTok : String

deriving instance DecidableEq, Repr for ParsedRange

/-- Drop a run of literal space characters (the regex space classes). -/
def dropSpaces (cs : List Char) : List Char :=
  cs.dropWhile (fun c => c = ' ')

/-- Match the optional three-letter day group.  The maximal alphabetic run
must be empty (group unmatched) or exactly three letters; any other run
length makes the anchored regex fail on both alternatives of the optional
group, since a letter can never satisfy the following digit class. -/
def takeDayTok (cs : List Char) : Option (Option String × List Char) :=
  let run := cs.takeWhile Char.isAlpha
  if run.length = 0 then some (Option.none, cs)
  else if run.length = 3 then some (some (String.mk run), cs.drop 3)
  else Option.none

/-- Match a one-or-two digit group.  The maximal digit run must have length
one or two: with a longer run, both the two-digit and the one-digit
alternative leave a digit where the regex next requires a separator, so the
anchored match fails. -/
def takeNum12 (cs : List Char) : Option (String × List Char) :=
  let run := cs.takeWhile Char.isDigit
  if run.length = 1 ∨ run.length = 2 then some (String.mk run, cs.drop run.length)
  else Option.none

/-- Require one literal character. -/
def expectChar (c : Char) (cs : List Char) : Option (List Char) :=
  match cs with
  | [] => Option.none
  | x :: rest => if x = c then some rest else Option.none

/-- Embedding of matching WEEK_RANGE_RE against a whole string: optional
spaces, optional day, spaces, hour, colon, minute, spaces, dash, spaces,
optional day, spaces, hour, colon, minute, optional spaces, end. -/
def weekRangeMatch (s : String) : Option ParsedRange :=
  match takeDayTok (dropSpaces s.toList) with
  | Option.none => Option.none
  | some (d1, cs1) =>
    match takeNum12 (dropSpaces cs1) with
    | Option.none => Option.none
    | some (h1, cs2) =>
      match expectChar ':' cs2 with
      | Option.none => Option.none
      | some cs3 =>
        match takeNum12 cs3 with
        | Option.none => Option.none
        | some (m1, cs4) =>
          match expectChar '-' (dropSpaces cs4) with
          | Option.none => Option.none
          | some cs5 =>
            match takeDayTok (dropSpaces cs5) with
            | Option.none => Option.none
            | some (d2, cs6) =>
              match takeNum12 (dropSpaces cs6) with
              | Option.none => Option.none
              | some (h2, cs7) =>
                match expectChar ':' cs7 with
                | Option.none => Option.none
                | some cs8 =>
                  match takeNum12 cs8 with
                  | Option.none => Option.none
                  | some (m2, cs9) =>
                    if dropSpaces cs9 = [] then
                      some ⟨d1, h1, m1, d2, h2, m2⟩
                    else Option.none

/-- Day capture group as a constructor argument: None or the matched text. -/
def dayArgOfTok : Option String → DayArg
  | Option.none => DayArg.absent
  | some s => DayArg.str s

/-- Message of the bare ValueError raised on a format mismatch. -/
def formatErrMsg (s : String) : String :=
  ("Provided time string to WeekRange.createFromStr does not match expected format. Got \"" ++ s ++ "\", was expecting \"(optional 3-letter abbrev for day) HH:MM - (opt day) HH:MM\". E.x. Mon 12:00 - Tue 12:35")

/-- Embedding of WeekRange.createFromStr: match the regex, then hand the
capture groups to the constructor.  The hour and minute groups are digit
strings; the int() conversion the constructor applies to them is performed
here at the call boundary. -/
def WeekRange.createFromStr (s : String) : Except WRError WeekRange :=
  match weekRangeMatch s with
  | Option.none => Except.error (WRError.valueError (formatErrMsg s))
  | some p =>
    WeekRange.make (dayArgOfTok p.startDayTok) (strToInt p.startHourTok)
      (strToInt p.startMinuteTok) (dayArgOfTok p.endDayTok)
      (strToInt p.endHourTok) (strToInt p.endMinuteTok)

/-- Python str.strip: remove leading and trailing whitespace. -/
def pythonStrip (s : String) : String :=
  String.mk (((s.toList.dropWhile Char.isWhitespace).reverse.dropWhile Char.isWhitespace).reverse)

/-- Splitting a character list at every comma, keeping empty pieces, as
Python str.split does with a one-character separator. -/
def splitCommaAux : List Char → List Char → List (List Char)
  | [], acc => [acc.reverse]
  | c :: rest, acc =>
    if c = ',' then acc.reverse :: splitCommaAux rest []
    else splitCommaAux rest (c :: acc)

/-- Python str.split on a comma. -/
def pySplitComma (s : String) : List String :=
  (splitCommaAux s.toList []).map String.mk

/-- Loop body of WeekRanges.createFromStr: walk the stripped segments in
order, skip empty ones, build a range per segment, abort on the first
error. -/
def rangesLoop : List String → Except WRError (List WeekRange)
  | [] => Except.ok []
  | x :: xs =>
    if x = "" then rangesLoop xs
    else
      match WeekRange.createFromStr x with
      | Except.error e => Except.error e
      | Except.ok r =>
        match rangesLoop xs with
        | Except.error e => Except.error e
        | Except.ok rs => Except.ok (r :: rs)

/-- Embedding of WeekRanges.createFromStr: split on commas, strip each
segment, then the loop above. -/
def WeekRanges.createFromStr (s : String) : Except WRError (List WeekRange) :=
  rangesLoop ((pySplitComma s).map pythonStrip)

/-- Sequential construction over a list of segments with no skipping,
written from the words of the spec for the set constructor: one range per
segment in order, the first failing segment aborts the whole operation with
its own error, no partial result. -/
def seqConstruct : List String → Except WRError (List WeekRange)
  | [] => Except.ok []
  | x :: xs =>
    match WeekRange.createFromStr x with
    | Except.error e => Except.error e
    | Except.ok r =>
      match seqConstruct xs with
      | Except.error e => Except.error e
      | Except.ok rs => Except.ok (r :: rs)

theorem classifyTimeOnly_inner_boundary (sh sm eh em : Int) (r : WeekRange) (d1 d2 : Int)
    (h : classifyTimeOnly sh sm eh em = Except.ok r) (hi : r.cmp.isInner = true) :
    r.intersects ⟨r.startDay.getD d1, r.startHour, r.startMinute⟩ = true ∧
    r.intersects ⟨r.endDay.getD d2, r.endHour, r.endMinute⟩ = false := by
  unfold classifyTimeOnly at h
  split_ifs at h with h1 h2 h3 h4
  · cases h
    simp [Cmp.isInner] at hi
  · cases h
    simp [Cmp.isInner] at hi
  · cases h
    refine ⟨?_, ?_⟩ <;>
      (simp only [WeekRange.intersects, WeekRange.intersectsTimeOnlyInnerMinOnly,
        Option.getD] <;> split_ifs <;>
        first
          | rfl
          | (exfalso; try simp only [true_and, and_true, false_or, or_false] at *; omega))
  · cases h
    refine ⟨?_, ?_⟩ <;>
      (simp only [WeekRange.intersects, WeekRange.intersectsTimeOnlyInner,
        Option.getD] <;> split_ifs <;>
        first
          | rfl
          | (exfalso; try simp only [true_and, and_true, false_or, or_false] at *; omega))

theorem classifyDay_inner_boundary (sd sh sm ed eh em : Int) (r : WeekRange) (d1 d2 : Int)
    (h : classifyDay sd sh sm ed eh em = Except.ok r) (hi : r.cmp.isInner = true) :
    r.intersects ⟨r.startDay.getD d1, r.startHour, r.startMinute⟩ = true ∧
    r.intersects ⟨r.endDay.getD d2, r.endHour, r.endMinute⟩ = false := by
  unfold classifyDay at h
  split_ifs at h with h1 h2 h3 h4 h5 h6
  · cases h
    simp [Cmp.isInner] at hi
  · cases h
    simp [Cmp.isInner] at hi
  · cases h
    simp [Cmp.isInner] at hi
  · cases h
    refine ⟨?_, ?_⟩ <;>
      (simp only [WeekRange.intersects, WeekRange.intersectsInnerSameDaySameHour,
        Option.getD] <;> split_ifs <;>
        first
          | rfl
          | (exfalso; try simp only [true_and, and_true, false_or, or_false] at *; omega))
  · cases h
    refine ⟨?_, ?_⟩ <;>
      (simp only [WeekRange.intersects, WeekRange.intersectsInnerSameDay,
        Option.getD] <;> split_ifs <;>
        first
          | rfl
          | (exfalso; try simp only [true_and, and_true, false_or, or_false] at *; omega))
  · cases h
    refine ⟨?_, ?_⟩ <;>
      (simp only [WeekRange.intersects, WeekRange.intersectsInner,
        Option.getD] <;> split_ifs <;>
        first
          | rfl
          | (exfalso; try simp only [true_and, and_true, false_or, or_false] at *; omega))

theorem makeResolved_inner_boundary (od oe : Option Int) (sh sm eh em : Int) (r : WeekRange)
    (d1 d2 : Int) (h : makeResolved od sh sm oe eh em = Except.ok r)
    (hi : r.cmp.isInner = true) :
    r.intersects ⟨r.startDay.getD d1, r.startHour, r.startMinute⟩ = true ∧
    r.intersects ⟨r.endDay.getD d2, r.endHour, r.endMinute⟩ = false := by
  cases od with
  | none =>
    cases oe with
    | none => exact classifyTimeOnly_inner_boundary sh sm eh em r d1 d2 h hi
    | some x => exact absurd h (by simp [makeResolved])
  | some sd =>
    cases oe with
    | none =>
      unfold makeResolved at h
      split_ifs at h with hc
      exact classifyDay_inner_boundary sd sh sm sd eh em r d1 d2 h hi
    | some ed => exact classifyDay_inner_boundary sd sh sm ed eh em r d1 d2 h hi

/-- Claim C5 (confirmed): for every successfully constructed inner range
(a construction that returns ok and binds one of the five inner
comparators), the instant exactly at the start boundary (the resolved start
day, or any day when day-less, at startHour and startMinute) satisfies
intersects, and the instant exactly at the end boundary (the resolved end
day, or any day when day-less, at endHour and endMinute) does not. -/
theorem make_inner_boundary (sda : DayArg) (sh sm : Int) (eda : DayArg) (eh em : Int)
    (r : WeekRange) (d1 d2 : Int)
    (hmk : WeekRange.make sda sh sm eda eh em = Except.ok r)
    (hi : r.cmp.isInner = true) :
    r.intersects ⟨r.startDay.getD d1, r.startHour, r.startMinute⟩ = true ∧
    r.intersects ⟨r.endDay.getD d2, r.endHour, r.endMinute⟩ = false := by
  unfold WeekRange.make at hmk
  cases hsd : resolveDay sda with
  | error e =>
    rw [hsd] at hmk
    exact absurd hmk (by simp)
  | ok od =>
    rw [hsd] at hmk
    cases hed : resolveDay eda with
    | error e =>
      rw [hed] at hmk
      exact absurd hmk (by simp)
    | ok oe =>
      rw [hed] at hmk
      exact makeResolved_inner_boundary od oe sh sm eh em r d1 d2 hmk hi

theorem rangesLoop_eq_seqConstruct (l : List String) :
    rangesLoop l = seqConstruct (l.filter (fun x => x ≠ (""))) := by
  induction l with
  | nil => rfl
  | cons x xs ih =>
    by_cases hx : x = ("")
    · subst hx
      simpa [rangesLoop] using ih
    · have hdx : (decide (x ≠ (""))) = true := by simp [hx]
      simp only [rangesLoop, List.filter, if_neg hx, hdx, ih]
      rfl

theorem seqConstruct_first_error (pre : List String) (seg : String) (post : List String)
    (e : WRError) (hpre : ∀ x ∈ pre, ∃ r, WeekRange.createFromStr x = Except.ok r)
    (hseg : WeekRange.createFromStr seg = Except.error e) :
    seqConstruct (pre ++ seg :: post) = Except.error e := by
  induction pre with
  | nil => simp [seqConstruct, hseg]
  | cons x xs ih =>
    obtain ⟨r, hr⟩ := hpre x (by simp)
    have htail := ih (fun y hy => hpre y (by simp [hy]))
    simp only [List.cons_append, seqConstruct, hr, htail, List.append_eq]

/-- Witness for claim C5 at a concrete multi-day inner range, Monday 09:00
to Tuesday 18:00: the start instant matches and the end instant does not. -/
theorem make_inner_boundary_witness :
    (⟨some 1, 9, 0, some 2, 18, 0, Cmp.inner⟩ : WeekRange).intersects ⟨1, 9, 0⟩ = true ∧
    (⟨some 1, 9, 0, some 2, 18, 0, Cmp.inner⟩ : WeekRange).intersects ⟨2, 18, 0⟩ = false :=
  make_inner_boundary (DayArg.num 1) 9 0 (DayArg.num 2) 18 0
    ⟨some 1, 9, 0, some 2, 18, 0, Cmp.inner⟩ 1 2 (by rfl) (by rfl)

/-- Claim C1 (code bug): for the day-bound inner same-day range from
Monday 09:00 to Monday 18:00 (startDay = endDay = 1, startHour 9 below
endHour 18), the bound comparator returns false at every Monday instant of
hour 12 — an hour strictly between the start and end hours — whatever the
minute, because the final arm of the same-day inner comparator returns
false instead of true.  The claim, and the interval semantics the module
documents, require true there. -/
theorem c1_innerSameDay_interior_false (m : Int) :
    (WeekRange.make (DayArg.num 1) 9 0 (DayArg.num 1) 18 0).map
        (fun r => r.intersects ⟨1, 12, m⟩) = Except.ok false := by
  have hred : WeekRange.make (DayArg.num 1) 9 0 (DayArg.num 1) 18 0
      = Except.ok ⟨some 1, 9, 0, some 1, 18, 0, Cmp.innerSameDay⟩ := rfl
  rw [hred]
  simp only [Except.map, WeekRange.intersects, WeekRange.intersectsInnerSameDay]
  split_ifs <;> first | rfl | (exfalso; omega)

/-- Claim C2 (code bug): for the day-less outer same-hour range from 12:30
to 12:10, the bound comparator returns false at minute 20 for every day and
every hour of the instant, because it never reads the hour.  The claim
requires true whenever the hour differs from 12. -/
theorem c2_timeOnlyOuterMinOnly_ignores_hour (d h : Int) :
    (WeekRange.make DayArg.absent 12 30 DayArg.absent 12 10).map
        (fun r => r.intersects ⟨d, h, 20⟩) = Except.ok false := by
  have hred : WeekRange.make DayArg.absent 12 30 DayArg.absent 12 10
      = Except.ok ⟨Option.none, 12, 30, Option.none, 12, 10, Cmp.timeOnlyOuterMinOnly⟩ := rfl
  rw [hred]
  simp only [Except.map, WeekRange.intersects, WeekRange.intersectsTimeOnlyOuterMinOnly]
  split_ifs <;> first | rfl | (exfalso; omega)

/-- Claim C3 (code bug): take the day-bound inner range R from Monday 09:00
to Monday 18:00 and the reversed range from Monday 18:00 to Monday 09:00.
At Monday 12:00, an instant distinct from both boundary instants, both
ranges return false, so the reversed range is not the negation of R away
from the boundaries as the claim states.  The root cause is the same-day
inner comparator of C1. -/
theorem c3_reversed_not_negation :
    (WeekRange.make (DayArg.num 1) 9 0 (DayArg.num 1) 18 0).map
        (fun r => r.intersects ⟨1, 12, 0⟩) = Except.ok false ∧
    (WeekRange.make (DayArg.num 1) 18 0 (DayArg.num 1) 9 0).map
        (fun r => r.intersects ⟨1, 12, 0⟩) = Except.ok false :=
  ⟨rfl, rfl⟩

/-- Claim C4 (code bug): both zero-length constructions fail, but the
day-bound one raises the builtin ValueError, not the module error type
WeekRangeValueError that the day-less one raises, against the claim that
the range-configuration error type is raised in every such case. -/
theorem c4_zero_length_error_type :
    WeekRange.make (DayArg.num 1) 10 30 (DayArg.num 1) 10 30
        = Except.error (WRError.valueError sameTimeErrMsg) ∧
    WeekRange.make DayArg.absent 10 30 DayArg.absent 10 30
        = Except.error (WRError.weekRangeValueError sameTimeErrMsg) ∧
    WRError.valueError sameTimeErrMsg ≠ WRError.weekRangeValueError sameTimeErrMsg :=
  ⟨rfl, rfl, by simp⟩

/-- Claim C6 (confirmed): the range parsed from the cross-week wraparound
text resolves startDay Friday and endDay Monday and matches Saturday 03:00
and Friday 22:00 (left-inclusive) but not Wednesday 12:00 nor Monday 06:00
(right-exclusive). -/
theorem c6_cross_week_outer_scenario :
    (WeekRange.createFromStr ("Fri 22:00 - Mon 06:00")).map (fun r =>
        (r.startDay, r.endDay, r.intersects ⟨6, 3, 0⟩, r.intersects ⟨3, 12, 0⟩,
          r.intersects ⟨1, 6, 0⟩, r.intersects ⟨5, 22, 0⟩))
      = Except.ok (some 5, some 1, true, false, false, true) := by rfl

/-- Claim C7 (confirmed): with a present start day and an absent end day,
construction succeeds with endDay auto-filled to startDay exactly when the
end time of day is strictly after the start time of day, and otherwise
fails with the module range-configuration error; with an absent start day
and a present end day it always fails with that error type. -/
theorem c7_day_autofill_asymmetry (n sh sm eh em : Int) :
    (if eh > sh ∨ (eh = sh ∧ em > sm) then
        (WeekRange.make (DayArg.num n) sh sm DayArg.absent eh em).map (fun r => r.endDay)
          = Except.ok (some n)
      else
        WeekRange.make (DayArg.num n) sh sm DayArg.absent eh em
          = Except.error (WRError.weekRangeValueError autoFillErrMsg)) ∧
    WeekRange.make DayArg.absent sh sm (DayArg.num n) eh em
      = Except.error (WRError.weekRangeValueError symmetryErrMsg) := by
  constructor
  · have hred : WeekRange.make (DayArg.num n) sh sm DayArg.absent eh em
        = if eh > sh ∨ (eh = sh ∧ em > sm) then classifyDay n sh sm n eh em
          else Except.error (WRError.weekRangeValueError autoFillErrMsg) := rfl
    split_ifs with hc
    · rw [hred, if_pos hc]
      unfold classifyDay
      split_ifs <;> first | rfl | (exfalso; omega)
    · rw [hred, if_neg hc]
  · rfl

/-- Claim C8 (confirmed): set construction from text equals splitting on
commas, stripping each segment, dropping empty segments, and sequentially
constructing one range per remaining segment in order, where the first
failing segment aborts the whole construction with its own error and no
partial list is returned. -/
theorem c8_set_construction (s : String) (segs : List String)
    (hsegs : segs = ((pySplitComma s).map pythonStrip).filter (fun x => x ≠ (""))) :
    WeekRanges.createFromStr s = seqConstruct segs ∧
    ∀ pre seg post (e : WRError), segs = pre ++ seg :: post →
      (∀ x ∈ pre, ∃ r, WeekRange.createFromStr x = Except.ok r) →
      WeekRange.createFromStr seg = Except.error e →
      WeekRanges.createFromStr s = Except.error e := by
  subst hsegs
  refine ⟨rangesLoop_eq_seqConstruct _, ?_⟩
  intro pre seg post e hsplit hpre hseg
  have h1 : WeekRanges.createFromStr s
      = seqConstruct (((pySplitComma s).map pythonStrip).filter (fun x => x ≠ (""))) :=
    rangesLoop_eq_seqConstruct _
  rw [h1, hsplit]
  exact seqConstruct_first_error pre seg post e hpre hseg

/-- Witness for claim C8: a concrete three-segment text with an empty
middle segment builds the two stripped segments in order, and a concrete
text whose second segment is malformed propagates that exact format
error. -/
theorem c8_set_construction_witness :
    WeekRanges.createFromStr ("Mon 09:00 - 18:00, , Tue 09:00 - 18:00")
        = seqConstruct [("Mon 09:00 - 18:00"), ("Tue 09:00 - 18:00")] ∧
    WeekRanges.createFromStr ("Mon 09:00 - 18:00, 99:99x")
        = Except.error (WRError.valueError (formatErrMsg ("99:99x"))) := by
  constructor
  · exact (c8_set_construction ("Mon 09:00 - 18:00, , Tue 09:00 - 18:00")
      [("Mon 09:00 - 18:00"), ("Tue 09:00 - 18:00")] (by rfl)).1
  · exact (c8_set_construction ("Mon 09:00 - 18:00, 99:99x")
      [("Mon 09:00 - 18:00"), ("99:99x")] (by rfl)).2
      [("Mon 09:00 - 18:00")] ("99:99x") [] (WRError.valueError (formatErrMsg ("99:99x")))
      (by rfl)
      (by
        intro x hx
        simp only [List.mem_singleton] at hx
        subst hx
        exact ⟨⟨some 1, 9, 0, some 1, 18, 0, Cmp.innerSameDay⟩, by rfl⟩)
      (by rfl)

/-- Claim C9 (code bug): the constructor binds the multi-day inner
comparator for a day-bound multi-day inner range, and the embedded boolean
logic of that comparator is total; the source method itself, however,
executes a leftover interactive debugger call on every invocation, which
is the divergence from the purity claim recorded outside this file. -/
theorem c9_multiday_inner_binding :
    (WeekRange.make (DayArg.num 1) 9 0 (DayArg.num 3) 18 0).map (fun r => r.cmp)
        = Except.ok Cmp.inner ∧
    (WeekRange.make (DayArg.num 1) 9 0 (DayArg.num 3) 18 0).map
        (fun r => r.intersects ⟨1, 12, 0⟩) = Except.ok true :=
  ⟨rfl, rfl⟩

/-- Claim C10 (confirmed): an integer day outside 0..6 is accepted
unvalidated — construction succeeds and stores it — while the same value
as a digit string is rejected by dayStrToNumber with the invalid-day
error. -/
theorem c10_integer_day_unvalidated (n : Int) (hn : n < 0 ∨ 6 < n) :
    (WeekRange.make (DayArg.num n) 9 0 (DayArg.num n) 18 0).map
        (fun r => (r.startDay, r.endDay)) = Except.ok (some n, some n) ∧
    WeekRange.make (DayArg.str ("9")) 9 0 (DayArg.str ("9")) 18 0
      = Except.error (WRError.weekRangeValueError (invalidDayMsg ("9"))) := by
  refine ⟨?_, by rfl⟩
  show (classifyDay n 9 0 n 18 0).map (fun r => (r.startDay, r.endDay)) = _
  unfold classifyDay
  split_ifs <;> first | rfl | (exfalso; omega)

/-- Witness for claim C10 at the concrete out-of-range day 9. -/
theorem c10_integer_day_unvalidated_witness :
    ((9 : Int) < 0 ∨ (6 : Int) < 9) ∧
    ((WeekRange.make (DayArg.num 9) 9 0 (DayArg.num 9) 18 0).map
        (fun r => (r.startDay, r.endDay)) = Except.ok (some 9, some 9) ∧
      WeekRange.make (DayArg.str ("9")) 9 0 (DayArg.str ("9")) 18 0
        = Except.error (WRError.weekRangeValueError (invalidDayMsg ("9")))) :=
  ⟨by decide, c10_integer_day_unvalidated 9 (by decide)⟩
